import Mathlib

/-!
Verification of the kolibri job/registration core and plugin utilities.

The job core (`Job`, `RegisteredJob`) is embedded from the specification of
the job representation and registration/enqueue pipeline; the plugin
utilities are embedded from `kolibri/plugins/utils/__init__.py`.
Side effects on external collaborators (storage, scheduler, queues,
configuration) are made explicit as call traces, and Python exceptions are
modelled with `Except` over an explicit error universe.
-/

namespace KolibriSpec

/-- Universe of Python argument values that flow through the job pipeline
(strings and integers suffice for every operation the core performs, since
the core never inspects the arguments it forwards). -/
inductive Val where
  | str (s : String)
  | num (n : Int)
deriving DecidableEq, Repr

/-- Universe of Python exceptions raised by or through the job core:
`referenceError` for detached-job mutation, `keyError` for a missing
priority in the priority-to-queue map, and `custom` for arbitrary
caller-supplied validator failures. -/
inductive Err where
  | referenceError
  | keyError (key : String)
  | custom (msg : String)
deriving DecidableEq, Repr

/-- Modelled from the spec: one call to the storage collaborator's
`save_job_as_cancellable(job_id, cancellable)` operation
(`kolibri/core/tasks/job.py` is not under src; only its tests are). -/
structure StorageCall where
  job_id : String
  cancellable : Bool
deriving DecidableEq, Repr

/-- Modelled from the spec: the `Job` record of `kolibri/core/tasks/job.py`
(not under src): target function, bound positional and keyword arguments,
identifier, the `cancellable` and `track_progress` flags, and an optional
(non-owning, possibly absent) storage relation.  Functions and storage
backends are identified by opaque numeric handles. -/
structure Job where
  func : Nat
  args : List Val
  kwargs : List (String × Val)
  job_id : String
  cancellable : Bool
  track_progress : Bool
  storage : Option Nat
deriving DecidableEq, Repr

/-- Result of a `save_as_cancellable` call: the job state afterwards, the
normal/exceptional outcome, and the trace of storage calls performed. -/
structure SaveResult where
  post : Job
  result : Except Err Unit
  storageCalls : List StorageCall
deriving Repr

/-- Modelled from the spec: `Job.save_as_cancellable` of
`kolibri/core/tasks/job.py` (not under src).  If the requested value equals
the current flag, return with no side effect; otherwise require a bound
storage relation, failing with a `ReferenceError` (and leaving the flag
unaltered) when it is absent; when bound, update the in-memory flag and
invoke `storage.save_job_as_cancellable(job_id, cancellable)` exactly
once. -/
def Job.save_as_cancellable (j : Job) (c : Bool) : SaveResult :=
  if c = j.cancellable then ⟨j, .ok (), []⟩
  else
    match j.storage with
    | none => ⟨j, .error .referenceError, []⟩
    | some _ => ⟨{ j with cancellable := c }, .ok (), [⟨j.job_id, c⟩]⟩

/-- Modelled from the spec: Python's `str.upper()`, used to case-normalize
priority labels (basic latin letters, applied characterwise). -/
def pyUpper (s : String) : String :=
  ⟨s.data.map Char.toUpper⟩

/-- Modelled from the spec: an instantiated permission predicate object;
permission classes are identified by opaque numeric handles. -/
structure Permission where
  cls : Nat
deriving DecidableEq, Repr

/-- Modelled from the spec: instantiating a permission class with zero
arguments produces its predicate object. -/
def Permission.instantiate (cls : Nat) : Permission :=
  ⟨cls⟩

/-- Modelled from the spec: a caller-supplied validator, a function of the
positional and keyword arguments that returns a validator result or raises
a failure. -/
def Validator : Type :=
  List Val → List (String × Val) → Except Err Val

/-- Modelled from the spec: the `RegisteredJob` record of
`kolibri/core/tasks/job.py` (not under src): registered function,
validator, (already normalized) priority, instantiated permissions, and
the default job identifier and flags copied onto every produced job. -/
structure RegisteredJob where
  func : Nat
  validator : Validator
  priority : String
  permissions : List Permission
  job_id : String
  cancellable : Bool
  track_progress : Bool

/-- Modelled from the spec: the `RegisteredJob` constructor.  Normalizes
`priority` to upper case, instantiates each permission class with zero
arguments (order preserved), and stores the remaining fields verbatim. -/
def RegisteredJob.init (func : Nat) (validator : Validator) (priority : String)
    (permission_classes : List Nat) (job_id : String)
    (cancellable : Bool) (track_progress : Bool) : RegisteredJob :=
  ⟨func, validator, pyUpper priority, permission_classes.map Permission.instantiate,
    job_id, cancellable, track_progress⟩

/-- One invocation of the registered validator, recording exactly the
arguments it was called with. -/
structure ValidatorCall where
  args : List Val
  kwargs : List (String × Val)
deriving DecidableEq, Repr

/-- Modelled from the spec: `RegisteredJob._ready_job(*args, **kwargs)`.
Runs the validator on exactly the caller's arguments (recorded in the
call trace), propagates any validator failure unchanged, and on success
builds `Job(func, *args, job_id=job_id, cancellable=cancellable,
track_progress=track_progress, **kwargs, validator_result=<output>)`. -/
def RegisteredJob._ready_job (r : RegisteredJob) (args : List Val)
    (kwargs : List (String × Val)) : Except Err Job × List ValidatorCall :=
  (match r.validator args kwargs with
   | .error e => .error e
   | .ok validator_result =>
       .ok ⟨r.func, args, kwargs ++ [("validator_result", validator_result)],
         r.job_id, r.cancellable, r.track_progress, none⟩,
   [⟨args, kwargs⟩])

/-- Lookup of a priority label in the external priority-to-queue map,
modelled as an association list of queue handles. -/
def lookupQueue : List (String × Nat) → String → Option Nat
  | [], _ => none
  | (k, v) :: rest, p => if k = p then some v else lookupQueue rest p

/-- One call to a queue's `enqueue(func=job)` operation. -/
structure QueueCall where
  queue : Nat
  func : Job
deriving DecidableEq, Repr

/-- Modelled from the spec: `RegisteredJob.enqueue(*args, **kwargs)`.
Builds a ready job via `_ready_job`, looks the queue for `self.priority` up
in the priority-to-queue map, and submits the job via `queue.enqueue(func=job)`
exactly once; a missing entry for the priority fails the call with a
`KeyError`. -/
def RegisteredJob.enqueue (r : RegisteredJob) (pmap : List (String × Nat))
    (args : List Val) (kwargs : List (String × Val)) : Except Err (List QueueCall) :=
  match (r._ready_job args kwargs).1 with
  | .error e => .error e
  | .ok job =>
    match lookupQueue pmap r.priority with
    | none => .error (.keyError r.priority)
    | some q => .ok [⟨q, job⟩]

/-- One call to the scheduler's `enqueue_in(func, delta_t, interval, repeat)`
operation. -/
structure SchedulerInCall where
  func : Job
  delta_t : Int
  interval : Option Int
  repeat_count : Nat
deriving DecidableEq, Repr

/-- One call to the scheduler's `enqueue_at(func, dt, interval, repeat)`
operation. -/
structure SchedulerAtCall where
  func : Job
  dt : Int
  interval : Option Int
  repeat_count : Nat
deriving DecidableEq, Repr

/-- Modelled from the spec: `RegisteredJob.enqueue_in(delta_time, interval,
repeat, args, kwargs)`.  Builds a ready job from `args`/`kwargs` and
delegates to the scheduler's `enqueue_in(func=job, delta_t=delta_time,
interval=interval, repeat=repeat)` exactly once. -/
def RegisteredJob.enqueue_in (r : RegisteredJob) (delta_time : Int)
    (interval : Option Int) (repeat_count : Nat) (args : List Val)
    (kwargs : List (String × Val)) : Except Err (List SchedulerInCall) :=
  match (r._ready_job args kwargs).1 with
  | .error e => .error e
  | .ok job => .ok [⟨job, delta_time, interval, repeat_count⟩]

/-- Modelled from the spec: `RegisteredJob.enqueue_at(datetime, interval,
repeat, args, kwargs)`.  Builds a ready job from `args`/`kwargs` and
delegates to the scheduler's `enqueue_at(func=job, dt=datetime,
interval=interval, repeat=repeat)` exactly once. -/
def RegisteredJob.enqueue_at (r : RegisteredJob) (datetime : Int)
    (interval : Option Int) (repeat_count : Nat) (args : List Val)
    (kwargs : List (String × Val)) : Except Err (List SchedulerAtCall) :=
  match (r._ready_job args kwargs).1 with
  | .error e => .error e
  | .ok job => .ok [⟨job, datetime, interval, repeat_count⟩]

/-- A class-like value found in a plugin module's `__dict__`: its identity,
whether it is a `type` (a class), the module it was defined in
(`__module__`), and whether it is a subclass of `KolibriPluginBase`. -/
structure PluginClassDef where
  clsId : Nat
  isType : Bool
  module_name : String
  isKolibriPluginSubclass : Bool
deriving DecidableEq, Repr

/-- A successfully imported `kolibri_plugin` module: its `__name__`, its
`__package__` (absent or possibly empty), and the values of its
`__dict__`. -/
structure PluginModule where
  name : String
  package : Option String
  dictValues : List PluginClassDef
deriving DecidableEq, Repr

/-- The part of Python's `str.rpartition(".")` used by
`get_kolibri_plugin_object`: the text before the last `.`, empty when the
string has no `.`. -/
def rpartitionHead (s : String) : String :=
  match s.data.reverse.dropWhile (fun c => c ≠ '.') with
  | [] => ""
  | _ :: rest => ⟨rest.reverse⟩

/-- Exceptions escaping the plugin utilities: `PluginDoesNotExist`,
`PluginLoadsApp`, `MultiplePlugins`, and a re-raised `ImportError` whose
message does not start with "No module named". -/
inductive PluginFailure where
  | pluginDoesNotExist
  | pluginLoadsApp
  | multiplePlugins
  | importError
deriving DecidableEq, Repr

/-- Outcome of importing the bare plugin module: success, an `ImportError`
whose message starts with "No module named", or any other `ImportError`. -/
inductive BaseImportResult where
  | ok
  | noModuleError
  | otherImportError
deriving DecidableEq, Repr

/-- Outcome of importing the plugin's `kolibri_plugin` submodule: the
loaded module on success, a "No module named" `ImportError`, any other
`ImportError`, or `AppRegistryNotReady` raised during the import. -/
inductive SubImportResult where
  | ok (m : PluginModule)
  | noModuleError
  | otherImportError
  | appRegistryNotReady
deriving DecidableEq, Repr

/-- The import environment a plugin-utility call runs in: what importing
the bare plugin name and its `kolibri_plugin` submodule would yield. -/
structure ImportEnv where
  base : BaseImportResult
  sub : SubImportResult
deriving DecidableEq, Repr

/-- An instantiated plugin object (the unique plugin class, constructed
with zero arguments). -/
structure PluginInstance where
  cls : PluginClassDef
deriving DecidableEq, Repr

/-- Embeds `_is_plugin` (src/kolibri/plugins/utils/__init__.py line 49):
`isinstance(class_definition, type) and issubclass(class_definition,
KolibriPluginBase)`. -/
def _is_plugin (class_definition : PluginClassDef) : Bool :=
  class_definition.isType && class_definition.isKolibriPluginSubclass

/-- Embeds `_import_python_module` (line 55): a "No module named"
`ImportError` becomes `PluginDoesNotExist`; any other `ImportError` is
re-raised. -/
def _import_python_module (b : BaseImportResult) : Except PluginFailure Unit :=
  match b with
  | .ok => .ok ()
  | .noModuleError => .error .pluginDoesNotExist
  | .otherImportError => .error .importError

/-- Embeds the `plugin_package` computation of `get_kolibri_plugin_object`
(lines 92-96): the module's `__package__` when truthy, else the text of
`__name__` before the last dot. -/
def plugin_package (m : PluginModule) : String :=
  match m.package with
  | some p => if p = "" then rpartitionHead m.name else p
  | none => rpartitionHead m.name

/-- Embeds the class-collection pipeline of `get_kolibri_plugin_object`
(lines 87-103): keep the `__dict__` values that are types, keep those whose
`__module__` is the plugin's own `kolibri_plugin` module, then keep those
satisfying `_is_plugin`. -/
def kolibri_plugin_classes (m : PluginModule) : List PluginClassDef :=
  let all_classes := m.dictValues.filter (fun cls => cls.isType)
  let own_classes := all_classes.filter
    (fun x => plugin_package m ++ ".kolibri_plugin" == x.module_name)
  own_classes.filter _is_plugin

/-- Embeds `get_kolibri_plugin_object` (lines 70-134): import the bare
plugin name, import its `kolibri_plugin` submodule (mapping "No module
named" `ImportError` to `PluginDoesNotExist` and `AppRegistryNotReady` to
`PluginLoadsApp`), then collect the module's own plugin classes and return
an instance of the unique one, raising `PluginDoesNotExist` for zero and
`MultiplePlugins` for more than one. -/
def get_kolibri_plugin_object (env : ImportEnv) : Except PluginFailure PluginInstance :=
  match _import_python_module env.base with
  | .error e => .error e
  | .ok _ =>
    match env.sub with
    | .noModuleError => .error .pluginDoesNotExist
    | .otherImportError => .error .importError
    | .appRegistryNotReady => .error .pluginLoadsApp
    | .ok m =>
      match kolibri_plugin_classes m with
      | [] => .error .pluginDoesNotExist
      | [c] => .ok ⟨c⟩
      | _ :: _ :: _ => .error .multiplePlugins

/-- Observable side effect of a plugin-utility call: a log line, a call to
the plugin object's `enable`/`disable`, or a `config.clear_plugin` call. -/
inductive PluginEffect where
  | logError
  | logWarning
  | logInfo
  | enableCalled (clsId : Nat)
  | disableCalled (clsId : Nat)
  | clearPlugin (plugin_name : String)
deriving DecidableEq, Repr

/-- Embeds `enable_plugin` (lines 137-143): on success call the plugin
object's `enable`; a `PluginDoesNotExist` failure is caught and only
logged as an error; every other failure propagates. -/
def enable_plugin (env : ImportEnv) (plugin_name : String) :
    Except PluginFailure (List PluginEffect) :=
  match get_kolibri_plugin_object env with
  | .ok obj => .ok [.enableCalled obj.cls.clsId]
  | .error .pluginDoesNotExist => .ok [.logError]
  | .error e => .error e

/-- Embeds `disable_plugin` (lines 146-157): on success call the plugin
object's `disable`; a `PluginDoesNotExist` failure is caught, logged, and
followed by `config.clear_plugin(plugin_name)` and an info log; every
other failure propagates. -/
def disable_plugin (env : ImportEnv) (plugin_name : String) :
    Except PluginFailure (List PluginEffect) :=
  match get_kolibri_plugin_object env with
  | .ok obj => .ok [.disableCalled obj.cls.clsId]
  | .error .pluginDoesNotExist =>
      .ok [.logError, .logWarning, .clearPlugin plugin_name, .logInfo]
  | .error e => .error e

/-- Modelled from the spec: `config.clear_plugin` (defined in
`kolibri/plugins/__init__.py`, not under src) removes the named plugin's
entry from the plugin configuration; log lines and `enable`/`disable`
calls do not touch the configuration. -/
def applyEffect (cfg : List String) : PluginEffect → List String
  | .clearPlugin n => cfg.filter (fun entry => entry ≠ n)
  | _ => cfg

/-- Applies a trace of plugin effects to a configuration, in order. -/
def applyEffects (cfg : List String) (effects : List PluginEffect) : List String :=
  effects.foldl applyEffect cfg

theorem char_toUpper_idem (c : Char) : c.toUpper.toUpper = c.toUpper := by
  by_cases h : 97 ≤ c.toNat ∧ c.toNat ≤ 122
  · have h1 : c.toUpper = Char.ofNat (c.toNat - 32) := by
      simp only [Char.toUpper]
      rw [if_pos ⟨h.1, h.2⟩]
    rw [h1]
    obtain ⟨h2, h3⟩ := h
    obtain ⟨n, hn⟩ : ∃ n, c.toNat = n := ⟨_, rfl⟩
    rw [hn] at h2 h3 ⊢
    interval_cases n <;> decide
  · have h1 : c.toUpper = c := by
      simp only [Char.toUpper]
      rw [if_neg h]
    rw [h1]
    exact h1

theorem pyUpper_idem (s : String) : pyUpper (pyUpper s) = pyUpper s := by
  show (⟨(s.data.map Char.toUpper).map Char.toUpper⟩ : String) = ⟨s.data.map Char.toUpper⟩
  rw [List.map_map]
  have h : Char.toUpper ∘ Char.toUpper = Char.toUpper := funext char_toUpper_idem
  rw [h]

/-- C1: for every job with a bound storage backend, `save_as_cancellable c`
performs zero storage calls and leaves all state unchanged when `c` equals
the current cancellable flag, and when `c` differs it calls the storage
backend's `save_job_as_cancellable` exactly once with the job's id and the
new value, setting the in-memory flag to `c`. -/
theorem C1_save_as_cancellable_bound (j : Job) (c : Bool) (h : j.storage.isSome) :
    (c = j.cancellable → j.save_as_cancellable c = ⟨j, .ok (), []⟩) ∧
    (c ≠ j.cancellable →
      j.save_as_cancellable c =
        ⟨{ j with cancellable := c }, .ok (), [⟨j.job_id, c⟩]⟩) := by
  constructor
  · intro hc
    simp [Job.save_as_cancellable, hc]
  · intro hc
    cases hs : j.storage with
    | none => rw [hs] at h; simp at h
    | some s => simp [Job.save_as_cancellable, hc, hs]

/-- Witness for C1 at a concrete job with bound storage, exercising both
the unchanged-value branch and the changed-value branch. -/
theorem C1_save_as_cancellable_bound_witness :
    Job.save_as_cancellable ⟨0, [], [], "jid", false, false, some 0⟩ false =
      ⟨⟨0, [], [], "jid", false, false, some 0⟩, .ok (), []⟩ ∧
    Job.save_as_cancellable ⟨0, [], [], "jid", false, false, some 0⟩ true =
      ⟨⟨0, [], [], "jid", true, false, some 0⟩, .ok (), [⟨"jid", true⟩]⟩ :=
  ⟨(C1_save_as_cancellable_bound ⟨0, [], [], "jid", false, false, some 0⟩ false
      (by decide)).1 (by decide),
   (C1_save_as_cancellable_bound ⟨0, [], [], "jid", false, false, some 0⟩ true
      (by decide)).2 (by decide)⟩

/-- C2: `_ready_job` invokes the registered validator exactly once with
exactly the caller's arguments, and on validator success returns the job
`Job(func, *args, job_id, cancellable, track_progress, **kwargs,
validator_result=<validator output>)` with the caller's arguments
otherwise unmodified. -/
theorem C2_ready_job_builds_job (r : RegisteredJob) (args : List Val)
    (kwargs : List (String × Val)) :
    (r._ready_job args kwargs).2 = [⟨args, kwargs⟩] ∧
    ∀ res, r.validator args kwargs = .ok res →
      (r._ready_job args kwargs).1 =
        .ok ⟨r.func, args, kwargs ++ [("validator_result", res)],
          r.job_id, r.cancellable, r.track_progress, none⟩ := by
  constructor
  · rfl
  · intro res hres
    simp [RegisteredJob._ready_job, hres]

/-- Witness for C2 at a concrete registered job and argument list,
mirroring `_ready_job("10", base=10)` from the tests. -/
theorem C2_ready_job_builds_job_witness :
    ((RegisteredJob.init 7 (fun _ _ => Except.ok (Val.num 42)) "high" [1] "test"
        true true)._ready_job [Val.str "10"] [("base", Val.num 10)]).1 =
      .ok ⟨7, [Val.str "10"], [("base", Val.num 10), ("validator_result", Val.num 42)],
        "test", true, true, none⟩ :=
  (C2_ready_job_builds_job
    (RegisteredJob.init 7 (fun _ _ => Except.ok (Val.num 42)) "high" [1] "test" true true)
    [Val.str "10"] [("base", Val.num 10)]).2 (Val.num 42) rfl

/-- C3: `enqueue` builds the ready job via `_ready_job` and submits it
exactly once via `queue.enqueue(func=job)` to the queue mapped under the
instance's normalized priority, failing when the priority-to-queue map has
no entry for that priority. -/
theorem C3_enqueue_dispatch (r : RegisteredJob) (pmap : List (String × Nat))
    (args : List Val) (kwargs : List (String × Val)) (job : Job)
    (h : (r._ready_job args kwargs).1 = .ok job) :
    (∀ q, lookupQueue pmap r.priority = some q →
      r.enqueue pmap args kwargs = .ok [⟨q, job⟩]) ∧
    (lookupQueue pmap r.priority = none →
      r.enqueue pmap args kwargs = .error (.keyError r.priority)) := by
  constructor
  · intro q hq
    simp [RegisteredJob.enqueue, h, hq]
  · intro hq
    simp [RegisteredJob.enqueue, h, hq]

/-- Witness for C3 at a concrete registered job, exercising both a map
that contains the normalized priority and one that does not. -/
theorem C3_enqueue_dispatch_witness :
    (RegisteredJob.init 7 (fun _ _ => Except.ok (Val.num 42)) "high" [] "test"
        true true).enqueue [("HIGH", 5)] [] [] =
      .ok [⟨5, ⟨7, [], [("validator_result", Val.num 42)], "test", true, true, none⟩⟩] ∧
    (RegisteredJob.init 7 (fun _ _ => Except.ok (Val.num 42)) "high" [] "test"
        true true).enqueue [] [] [] = .error (.keyError "HIGH") :=
  ⟨(C3_enqueue_dispatch
      (RegisteredJob.init 7 (fun _ _ => Except.ok (Val.num 42)) "high" [] "test" true true)
      [("HIGH", 5)] [] []
      ⟨7, [], [("validator_result", Val.num 42)], "test", true, true, none⟩ rfl).1 5 rfl,
   (C3_enqueue_dispatch
      (RegisteredJob.init 7 (fun _ _ => Except.ok (Val.num 42)) "high" [] "test" true true)
      [] [] []
      ⟨7, [], [("validator_result", Val.num 42)], "test", true, true, none⟩ rfl).2 rfl⟩

/-- C4: for every job with no bound storage backend, `save_as_cancellable`
with a value different from the current flag fails with the
`ReferenceError`-kind failure, performs no storage call, and leaves the
in-memory cancellable flag (indeed the whole job) unaltered. -/
theorem C4_save_as_cancellable_detached (j : Job) (c : Bool)
    (h1 : j.storage = none) (h2 : c ≠ j.cancellable) :
    j.save_as_cancellable c = ⟨j, .error .referenceError, []⟩ := by
  simp [Job.save_as_cancellable, h1, h2]

/-- Witness for C4 at a concrete detached job. -/
theorem C4_save_as_cancellable_detached_witness :
    Job.save_as_cancellable ⟨0, [], [], "jid", false, false, none⟩ true =
      ⟨⟨0, [], [], "jid", false, false, none⟩, .error .referenceError, []⟩ :=
  C4_save_as_cancellable_detached ⟨0, [], [], "jid", false, false, none⟩ true
    rfl (by decide)

/-- C5: the priority stored at construction is the upper-case canonical
form of the supplied label; normalization happens exactly once at
construction (re-running the constructor on the stored value is the
identity), and every enqueue call on the instance behaves as if built from
the canonical label, relying only on the already-normalized value. -/
theorem C5_priority_normalized_once (func : Nat) (validator : Validator)
    (priority : String) (permission_classes : List Nat) (job_id : String)
    (c t : Bool) :
    (RegisteredJob.init func validator priority permission_classes job_id c t).priority =
      pyUpper priority ∧
    RegisteredJob.init func validator
        (RegisteredJob.init func validator priority permission_classes job_id c t).priority
        permission_classes job_id c t =
      RegisteredJob.init func validator priority permission_classes job_id c t ∧
    ∀ pmap args kwargs,
      (RegisteredJob.init func validator priority permission_classes job_id c t).enqueue
          pmap args kwargs =
        (RegisteredJob.init func validator (pyUpper priority) permission_classes
          job_id c t).enqueue pmap args kwargs := by
  refine ⟨rfl, ?_, ?_⟩
  · show RegisteredJob.init func validator (pyUpper priority) _ _ _ _ = _
    simp only [RegisteredJob.init, pyUpper_idem]
  · intro pmap args kwargs
    show (RegisteredJob.init func validator priority _ _ _ _).enqueue pmap args kwargs = _
    simp only [RegisteredJob.init, pyUpper_idem]

/-- C6: `enqueue_in` builds the ready job from the supplied args/kwargs and
calls the scheduler's `enqueue_in` exactly once with `func=<job>`,
`delta_t=T`, `interval=I`, `repeat=R`; `enqueue_at` behaves symmetrically,
calling the scheduler's `enqueue_at` exactly once with `dt=D`. -/
theorem C6_scheduler_delegation (r : RegisteredJob) (T D : Int)
    (I : Option Int) (R : Nat) (A : List Val) (K : List (String × Val))
    (job : Job) (h : (r._ready_job A K).1 = .ok job) :
    r.enqueue_in T I R A K = .ok [⟨job, T, I, R⟩] ∧
    r.enqueue_at D I R A K = .ok [⟨job, D, I, R⟩] := by
  constructor
  · simp [RegisteredJob.enqueue_in, h]
  · simp [RegisteredJob.enqueue_at, h]

/-- Witness for C6 at a concrete registered job and timing parameters. -/
theorem C6_scheduler_delegation_witness :
    (RegisteredJob.init 7 (fun _ _ => Except.ok (Val.num 42)) "high" [] "test"
        true true).enqueue_in 3 (some 10) 10 [] [] =
      .ok [⟨⟨7, [], [("validator_result", Val.num 42)], "test", true, true, none⟩,
        3, some 10, 10⟩] ∧
    (RegisteredJob.init 7 (fun _ _ => Except.ok (Val.num 42)) "high" [] "test"
        true true).enqueue_at 99 (some 10) 10 [] [] =
      .ok [⟨⟨7, [], [("validator_result", Val.num 42)], "test", true, true, none⟩,
        99, some 10, 10⟩] :=
  C6_scheduler_delegation
    (RegisteredJob.init 7 (fun _ _ => Except.ok (Val.num 42)) "high" [] "test" true true)
    3 99 (some 10) 10 [] []
    ⟨7, [], [("validator_result", Val.num 42)], "test", true, true, none⟩ rfl

/-- C7: the permissions field built at construction is exactly the list of
zero-argument instantiations of the supplied permission classes, one per
class, order preserved. -/
theorem C7_permissions_instantiated (func : Nat) (validator : Validator)
    (priority : String) (permission_classes : List Nat) (job_id : String)
    (c t : Bool) :
    (RegisteredJob.init func validator priority permission_classes job_id c t).permissions =
      permission_classes.map Permission.instantiate ∧
    ∀ i : Fin permission_classes.length,
      (RegisteredJob.init func validator priority permission_classes job_id c t).permissions.get
          ⟨i, by simp [RegisteredJob.init]⟩ =
        Permission.instantiate (permission_classes.get i) := by
  refine ⟨rfl, ?_⟩
  intro i
  simp [RegisteredJob.init]

/-- C8: any failure raised by the validator during `_ready_job` propagates
to the caller of each enqueue operation unmodified: the same error value
surfaces from `_ready_job`, `enqueue`, `enqueue_in` and `enqueue_at`, with
no wrapping, translation or suppression. -/
theorem C8_validator_failure_propagates (r : RegisteredJob) (args : List Val)
    (kwargs : List (String × Val)) (e : Err)
    (h : r.validator args kwargs = .error e) :
    (r._ready_job args kwargs).1 = .error e ∧
    (∀ pmap, r.enqueue pmap args kwargs = .error e) ∧
    (∀ T I R, r.enqueue_in T I R args kwargs = .error e) ∧
    (∀ D I R, r.enqueue_at D I R args kwargs = .error e) := by
  have h1 : (r._ready_job args kwargs).1 = .error e := by
    simp [RegisteredJob._ready_job, h]
  refine ⟨h1, ?_, ?_, ?_⟩
  · intro pmap
    simp [RegisteredJob.enqueue, h1]
  · intro T I R
    simp [RegisteredJob.enqueue_in, h1]
  · intro D I R
    simp [RegisteredJob.enqueue_at, h1]

/-- Witness for C8 at a concrete registered job whose validator fails. -/
theorem C8_validator_failure_propagates_witness :
    ((RegisteredJob.init 7 (fun _ _ => Except.error (Err.custom "boom")) "high" []
        "test" true true)._ready_job [] []).1 = .error (Err.custom "boom") ∧
    (RegisteredJob.init 7 (fun _ _ => Except.error (Err.custom "boom")) "high" []
        "test" true true).enqueue [("HIGH", 5)] [] [] = .error (Err.custom "boom") :=
  ⟨(C8_validator_failure_propagates
      (RegisteredJob.init 7 (fun _ _ => Except.error (Err.custom "boom")) "high" []
        "test" true true) [] [] (Err.custom "boom") rfl).1,
   (C8_validator_failure_propagates
      (RegisteredJob.init 7 (fun _ _ => Except.error (Err.custom "boom")) "high" []
        "test" true true) [] [] (Err.custom "boom") rfl).2.1 [("HIGH", 5)]⟩

/-- C9: when the plugin's `kolibri_plugin` submodule imports successfully,
`get_kolibri_plugin_object` raises `PluginDoesNotExist` when the submodule
defines zero `KolibriPluginBase`-derived classes, returns an instance of
the unique class when it defines exactly one, raises `MultiplePlugins`
when it defines more than one, and classes merely imported into the
submodule (whose `__module__` is not the plugin's own `kolibri_plugin`
module) are excluded from the count. -/
theorem C9_plugin_object_cases (env : ImportEnv) (m : PluginModule)
    (hbase : env.base = .ok) (hsub : env.sub = .ok m) :
    (kolibri_plugin_classes m = [] →
      get_kolibri_plugin_object env = .error .pluginDoesNotExist) ∧
    (∀ c, kolibri_plugin_classes m = [c] →
      get_kolibri_plugin_object env = .ok ⟨c⟩) ∧
    (∀ c1 c2 rest, kolibri_plugin_classes m = c1 :: c2 :: rest →
      get_kolibri_plugin_object env = .error .multiplePlugins) ∧
    (∀ d ∈ m.dictValues,
      d.module_name ≠ plugin_package m ++ ".kolibri_plugin" →
      d ∉ kolibri_plugin_classes m) := by
  refine ⟨?_, ?_, ?_, ?_⟩
  · intro h0
    simp [get_kolibri_plugin_object, _import_python_module, hbase, hsub, h0]
  · intro c h1
    simp [get_kolibri_plugin_object, _import_python_module, hbase, hsub, h1]
  · intro c1 c2 rest h2
    simp [get_kolibri_plugin_object, _import_python_module, hbase, hsub, h2]
  · intro d _ hmod hmem
    simp only [kolibri_plugin_classes] at hmem
    have hown := List.mem_of_mem_filter hmem
    have hcond := List.of_mem_filter hown
    rw [beq_iff_eq] at hcond
    exact hmod hcond.symm

/-- Witness for C9 on a concrete module defining one plugin class and also
importing a foreign plugin class, which is excluded from the count. -/
theorem C9_plugin_object_cases_witness :
    get_kolibri_plugin_object
        ⟨.ok, .ok ⟨"myplugin.kolibri_plugin", some "myplugin",
          [⟨1, true, "myplugin.kolibri_plugin", true⟩,
           ⟨2, true, "other.module", true⟩]⟩⟩ =
      .ok ⟨⟨1, true, "myplugin.kolibri_plugin", true⟩⟩ ∧
    ⟨2, true, "other.module", true⟩ ∉ kolibri_plugin_classes
      ⟨"myplugin.kolibri_plugin", some "myplugin",
        [⟨1, true, "myplugin.kolibri_plugin", true⟩,
         ⟨2, true, "other.module", true⟩]⟩ :=
  ⟨(C9_plugin_object_cases
      ⟨.ok, .ok ⟨"myplugin.kolibri_plugin", some "myplugin",
        [⟨1, true, "myplugin.kolibri_plugin", true⟩,
         ⟨2, true, "other.module", true⟩]⟩⟩
      ⟨"myplugin.kolibri_plugin", some "myplugin",
        [⟨1, true, "myplugin.kolibri_plugin", true⟩,
         ⟨2, true, "other.module", true⟩]⟩
      rfl rfl).2.1 ⟨1, true, "myplugin.kolibri_plugin", true⟩ (by decide),
   (C9_plugin_object_cases
      ⟨.ok, .ok ⟨"myplugin.kolibri_plugin", some "myplugin",
        [⟨1, true, "myplugin.kolibri_plugin", true⟩,
         ⟨2, true, "other.module", true⟩]⟩⟩
      ⟨"myplugin.kolibri_plugin", some "myplugin",
        [⟨1, true, "myplugin.kolibri_plugin", true⟩,
         ⟨2, true, "other.module", true⟩]⟩
      rfl rfl).2.2.2 ⟨2, true, "other.module", true⟩ (by decide) (by decide)⟩

/-- C10: when the named plugin cannot be loaded (`get_kolibri_plugin_object`
raises `PluginDoesNotExist`), `enable_plugin` only logs the error and
leaves the configuration unchanged, while `disable_plugin` additionally
removes the plugin's entry via `config.clear_plugin`; in both operations
the failure is swallowed and never propagates (both return normally). -/
theorem C10_enable_disable_swallow (env : ImportEnv) (plugin_name : String)
    (h : get_kolibri_plugin_object env = .error .pluginDoesNotExist) :
    enable_plugin env plugin_name = .ok [.logError] ∧
    (∀ cfg, applyEffects cfg [PluginEffect.logError] = cfg) ∧
    disable_plugin env plugin_name =
      .ok [.logError, .logWarning, .clearPlugin plugin_name, .logInfo] ∧
    ∀ cfg, applyEffects cfg
        [PluginEffect.logError, .logWarning, .clearPlugin plugin_name, .logInfo] =
      cfg.filter (fun entry => entry ≠ plugin_name) := by
  refine ⟨?_, ?_, ?_, ?_⟩
  · simp [enable_plugin, h]
  · intro cfg
    rfl
  · simp [disable_plugin, h]
  · intro cfg
    rfl

/-- Witness for C10 on a concrete unloadable plugin: both operations
succeed, and applying the disable trace removes exactly that plugin's
configuration entry. -/
theorem C10_enable_disable_swallow_witness :
    enable_plugin ⟨.noModuleError, .noModuleError⟩ "p" = .ok [.logError] ∧
    disable_plugin ⟨.noModuleError, .noModuleError⟩ "p" =
      .ok [.logError, .logWarning, .clearPlugin "p", .logInfo] ∧
    applyEffects ["p", "q"]
      [PluginEffect.logError, .logWarning, .clearPlugin "p", .logInfo] = ["q"] := by
  have h := C10_enable_disable_swallow ⟨.noModuleError, .noModuleError⟩ "p" rfl
  refine ⟨h.1, h.2.2.1, ?_⟩
  rw [h.2.2.2 ["p", "q"]]
  rfl

end KolibriSpec
